import Mathlib

/-!
Shallow embedding of the Entity Memory engine of the openclaw repository
(`DatabaseEntityMemoryProvider` and its helpers): the versioned profile
store, the episode log, the concern tracker, the MEMORY.md view compiler,
and the transactional batch-ingest orchestrator.

Modelling conventions:
- A single tenant is modelled (every operation of the provider is scoped
  by `tenant_id`; tenant isolation itself is not under scrutiny here), so
  the `tenantId` argument is dropped from the embedded operations.
- JSON values (`profile_data`, fact entries, metadata) are embedded as the
  inductive `JVal`.  MySQL `JSON_MERGE_PATCH` is RFC 7396 merge-patch and
  is embedded as `jsonMergePatch`.
- SQL `CURRENT_TIMESTAMP` and `new Date().toISOString().slice(0, 10)` are
  modelled as explicit `now`/`today` string parameters.
- The database connection/transaction is modelled as explicit state
  (`DBState`); each SQL statement of a transaction is a `step` that either
  applies its effect or raises an injected `SqlError` (the injection
  function plays the role of the fallible backend).  A raised error makes
  the transaction roll back, i.e. the caller observes the state from
  before the transaction - that is InnoDB's contract which the source
  invokes through `conn.rollback()`.
-/

namespace EntityMemory

/-- JSON values, used for `profile_data`, fact entries and metadata. -/
inductive JVal where
  | null
  | bool (b : Bool)
  | num (n : Int)
  | str (s : String)
  | arr (xs : List JVal)
  | obj (fs : List (String × JVal))

/-- Property lookup on a JSON object field list; absent keys and keys whose
value is JSON `null` are both mapped to `JVal.null`, matching the way the
source treats `undefined` and `null` alike through `??`. -/
def getField (fs : List (String × JVal)) (k : String) : JVal :=
  match fs.find? (fun kv => kv.fst == k) with
  | some kv => kv.snd
  | none => JVal.null

/-- Replace the value of key `k` (keeping its position), or append the pair
if the key is absent. -/
def setField (fs : List (String × JVal)) (k : String) (v : JVal) : List (String × JVal) :=
  if fs.any (fun kv => kv.fst == k) then
    fs.map (fun kv => if kv.fst == k then (k, v) else kv)
  else
    fs ++ [(k, v)]

/-- JS property access `data.k`: returns `undefined` (here `JVal.null`) on
non-objects. -/
def getProp (data : JVal) (k : String) : JVal :=
  match data with
  | JVal.obj fs => getField fs k
  | _ => JVal.null

mutual
/-- RFC 7396 JSON merge-patch, the semantics of MySQL `JSON_MERGE_PATCH`:
objects merge recursively, a `null` patch value removes the key, any
non-object patch replaces the target. -/
def jsonMergePatch : JVal → JVal → JVal
  | target, JVal.obj pfs =>
    JVal.obj (applyPatchFields (match target with | JVal.obj tfs => tfs | _ => []) pfs)
  | _, patch => patch

/-- Apply the fields of a merge-patch object to a target field list. -/
def applyPatchFields : List (String × JVal) → List (String × JVal) → List (String × JVal)
  | tfs, [] => tfs
  | tfs, (k, JVal.null) :: rest =>
    applyPatchFields (tfs.filter (fun kv => kv.fst != k)) rest
  | tfs, (k, v) :: rest =>
    applyPatchFields (setField tfs k (jsonMergePatch (getField tfs k) v)) rest
end

mutual
/-- `JSON.stringify` on the embedded JSON values (string escaping is not
modelled; no claim depends on the serialised text). -/
def jsonStringify : JVal → String
  | JVal.null => "null"
  | JVal.bool b => if b then "true" else "false"
  | JVal.num n => toString n
  | JVal.str s => "\"" ++ s ++ "\""
  | JVal.arr xs => "[" ++ stringifyList xs ++ "]"
  | JVal.obj fs => "\x7b" ++ stringifyFields fs ++ "\x7d"

/-- Comma-separated serialisation of a JSON array body. -/
def stringifyList : List JVal → String
  | [] => ""
  | [x] => jsonStringify x
  | x :: rest => jsonStringify x ++ "," ++ stringifyList rest

/-- Comma-separated serialisation of a JSON object body. -/
def stringifyFields : List (String × JVal) → String
  | [] => ""
  | [kv] => "\"" ++ kv.fst ++ "\":" ++ jsonStringify kv.snd
  | kv :: rest => "\"" ++ kv.fst ++ "\":" ++ jsonStringify kv.snd ++ "," ++ stringifyFields rest
end

/-- JS truthiness of a JSON value (`if (profile?.profileData)`). -/
def jvalTruthy : JVal → Bool
  | JVal.null => false
  | JVal.bool b => b
  | JVal.num n => n != 0
  | JVal.str s => s != ""
  | _ => true

-- ── mergeMedicalFacts ───────────────────────────────────────────────

/-- The dedup key of a fact entry, the runtime value of
`(nf.fact as string) ?? (nf.text as string) ?? ""`.  The TS `as string`
casts are erased at runtime, so `??` falls through only on null/undefined
— an absent field or a JSON `null`, both mapped to `JVal.null` by
`getField` — and any other field value, string or not, is the key itself.
Property access on a non-object yields undefined, so such entries resolve
to `""`. -/
def factText (nf : JVal) : JVal :=
  match nf with
  | JVal.obj fs =>
    match getField fs "fact" with
    | JVal.null =>
      (match getField fs "text" with
       | JVal.null => JVal.str ""
       | v => v)
    | v => v
  | _ => JVal.str ""

/-- JS strict equality `===` on the values a fact key can take: primitives
compare structurally (two nulls are equal, as in JS; the null/undefined
conflation is unobservable here because a resolved fact key is never
nullish).  Objects and arrays compare by reference in JS; the merge only
compares field values of distinct entries of JSON-parsed data, where no
aliasing exists, so two object/array operands are never the same
reference and the comparison is false. -/
def jsStrictEq : JVal → JVal → Bool
  | JVal.null, JVal.null => true
  | JVal.bool a, JVal.bool b => a == b
  | JVal.num a, JVal.num b => a == b
  | JVal.str a, JVal.str b => a == b
  | _, _ => false

/-- Merge new medical_facts into existing ones with deduplication, from
`mergeMedicalFacts` in the source.  The first argument is the accumulating
`merged` array (initialised by the caller with the existing facts); an
incoming fact whose resolved key is JS-falsy is skipped
(`if (!factText) continue`), one whose key is strictly equal (`===`) to
the key of an entry already in the accumulator is skipped, and otherwise
the entry is appended. -/
def mergeMedicalFacts : List JVal → List JVal → List JVal
  | merged, [] => merged
  | merged, nf :: rest =>
    if jvalTruthy (factText nf) = false then
      mergeMedicalFacts merged rest
    else if merged.any (fun ef => jsStrictEq (factText ef) (factText nf)) then
      mergeMedicalFacts merged rest
    else
      mergeMedicalFacts (merged ++ [nf]) rest

-- ── Enumerations and rows ───────────────────────────────────────────

/-- The `severity` column: ENUM('low','medium','high','critical'). -/
inductive Severity where
  | low
  | medium
  | high
  | critical
deriving DecidableEq, Repr

/-- `FIELD(severity, 'low','medium','high','critical')`: the 1-based index
used by the upsert's severity comparison. -/
def sevField : Severity → Nat
  | Severity.low => 1
  | Severity.medium => 2
  | Severity.high => 3
  | Severity.critical => 4

/-- `FIELD(severity, 'critical','high','medium','low')`: the sort key of
`getActiveConcerns`. -/
def sevOrd : Severity → Nat
  | Severity.critical => 1
  | Severity.high => 2
  | Severity.medium => 3
  | Severity.low => 4

/-- The stored string form of a severity. -/
def sevToString : Severity → String
  | Severity.low => "low"
  | Severity.medium => "medium"
  | Severity.high => "high"
  | Severity.critical => "critical"

/-- The `status` column: ENUM('active','improving','resolved','escalated'). -/
inductive Status where
  | active
  | improving
  | resolved
  | escalated
deriving DecidableEq, Repr

/-- One entry of a concern's `evidence` JSON array. -/
structure EvidenceEntry where
  text : String
  source : String
  date : String
deriving DecidableEq, Repr

/-- A row of `oc_memory_concerns` (single tenant). -/
structure MemoryConcern where
  id : Nat
  concernKey : String
  displayName : String
  severity : Severity
  status : Status
  mentionCount : Nat
  evidence : List EvidenceEntry
  firstSeenAt : String
  lastSeenAt : String
  resolvedAt : Option String
  followupDue : Option String
deriving DecidableEq, Repr

/-- A row of `oc_memory_episodes` (single tenant). -/
structure MemoryEpisode where
  id : Nat
  episodeType : String
  channel : String
  content : String
  metadata : Option JVal
  isSuperseded : Bool
  createdAt : String

/-- A row of `oc_memory_profiles` (single tenant). -/
structure MemoryProfile where
  profileData : JVal
  version : Nat
  lastInteractionAt : Option String

-- ── View compiler (assembleMemoryMarkdown) ──────────────────────────

/-- `fmtDate`: the source parses the timestamp with `new Date` and prints
`YYYY-MM-DD`.  On the date-time strings this store produces (MySQL
`YYYY-MM-DD hh:mm:ss` or ISO-8601), that amounts to the first ten
characters; JS `Date` parsing itself is host-library behaviour and is
embedded by that observable result. -/
def fmtDate (ts : String) : String :=
  ts.take 10

/-- `truncate` from the source: contents longer than `max` are cut to
`max` characters and suffixed with the three-character ellipsis marker. -/
def truncate (s : String) (max : Nat) : String :=
  if s.length > max then s.take max ++ "..." else s

/-- `formatFact` from the source: a string fact is used as-is; an object
fact uses its `fact` or `text` field, falling back to `JSON.stringify`;
anything else is stringified.  Known divergence, load-bearing for no
theorem below: for an object whose `fact`/`text` field holds a non-string
non-null value, the program's `??` returns that value and the template
literal coerces it, whereas this model falls through to `JSON.stringify`
of the whole entry. -/
def formatFact (f : JVal) : String :=
  match f with
  | JVal.str s => s
  | JVal.obj fs =>
    match getField fs "fact" with
    | JVal.str s => s
    | _ =>
      match getField fs "text" with
      | JVal.str s => s
      | _ => jsonStringify (JVal.obj fs)
  | v => jsonStringify v

/-- One `- k: v` line per non-null, non-empty entry of a snapshot object
(`baby_snapshot` / `feeding_profile`); objects are `JSON.stringify`-ed,
scalars go through JS `String(...)`. -/
def snapshotLines (fs : List (String × JVal)) : List String :=
  fs.filterMap (fun kv =>
    match kv.snd with
    | JVal.null => none
    | JVal.str "" => none
    | JVal.str s => some ("- " ++ kv.fst ++ ": " ++ s)
    | JVal.num n => some ("- " ++ kv.fst ++ ": " ++ toString n)
    | JVal.bool b => some ("- " ++ kv.fst ++ ": " ++ (if b then "true" else "false"))
    | v => some ("- " ++ kv.fst ++ ": " ++ jsonStringify v))

/-- The profile sections of the rendered document, in the source's fixed
order: medical facts, baby snapshot, feeding profile, next actions.
Known divergence, load-bearing for no theorem below: the snapshot guards
model `typeof v === "object"` as a `JVal.obj` match, so an array-valued
snapshot (which the program would enumerate via `Object.entries` index
lines) produces no section here. -/
def profileParts (data : JVal) : List String :=
  (match getProp data "medical_facts" with
   | JVal.arr xs =>
     if xs.length > 0 then
       ["## 重要医疗信息"] ++ xs.map (fun f => "- " ++ formatFact f) ++ [""]
     else []
   | _ => [])
  ++ (match getProp data "baby_snapshot" with
      | JVal.obj snap => ["## 宝宝基本信息"] ++ snapshotLines snap ++ [""]
      | _ => [])
  ++ (match getProp data "feeding_profile" with
      | JVal.obj fp => ["## 喂养情况"] ++ snapshotLines fp ++ [""]
      | _ => [])
  ++ (match getProp data "next_actions" with
      | JVal.arr xs =>
        if xs.length > 0 then
          ["## 待办事项"] ++ xs.map (fun a => "- " ++ formatFact a) ++ [""]
        else []
      | _ => [])

/-- One line of the active-concern section, with the `[!]` alert marker for
high/critical severity. -/
def concernLine (c : MemoryConcern) : String :=
  "- " ++ (if c.severity == Severity.critical || c.severity == Severity.high then "[!] " else "")
  ++ c.displayName ++ " (" ++ sevToString c.severity ++ ", 已提及"
  ++ toString c.mentionCount ++ "次, 最近: " ++ fmtDate c.lastSeenAt ++ ")"

/-- One line of the recent-episodes section: date and channel tag, content
truncated to 100 characters. -/
def episodeLine (e : MemoryEpisode) : String :=
  "- [" ++ fmtDate e.createdAt ++ " " ++ e.channel ++ "] " ++ truncate e.content 100

/-- `assembleMemoryMarkdown` from the source: `null` when the profile is
absent and both lists are empty, otherwise the section list joined with
newlines. -/
def assembleMemoryMarkdown (profile : Option MemoryProfile) (concerns : List MemoryConcern)
    (episodes : List MemoryEpisode) : Option String :=
  if profile.isNone && concerns.length == 0 && episodes.length == 0 then
    none
  else
    let parts : List String := ["# 记忆档案\n"]
    let parts := parts ++
      (match profile with
       | some p => if jvalTruthy p.profileData then profileParts p.profileData else []
       | none => [])
    let parts := parts ++
      (if concerns.length > 0 then
        ["## 当前关注事项"] ++ concerns.map concernLine ++ [""]
       else [])
    let parts := parts ++
      (if episodes.length > 0 then
        ["## 近期记录"] ++ episodes.map episodeLine ++ [""]
       else [])
    some (String.intercalate "\n" parts)

-- ── Sorting (ORDER BY) ──────────────────────────────────────────────

/-- Insert into a sorted list, used to model SQL `ORDER BY` (MySQL leaves
the order of ties unspecified; the model fixes one). -/
def insertSorted (le : α → α → Bool) (a : α) : List α → List α
  | [] => [a]
  | b :: bs => if le a b then a :: b :: bs else b :: insertSorted le a bs

/-- Insertion sort by a boolean comparison. -/
def sortBy (le : α → α → Bool) : List α → List α
  | [] => []
  | a :: as => insertSorted le a (sortBy le as)

-- ── Concern tracker ─────────────────────────────────────────────────

/-- The argument record of `upsertConcern` / one element of an ingest
call's `concerns` array. -/
structure ConcernInput where
  concernKey : String
  displayName : String
  severity : Severity
  evidenceText : String
  source : String
deriving DecidableEq, Repr

/-- The row-level effect of the `INSERT ... ON DUPLICATE KEY UPDATE` of
`upsertConcern`.  On insert the table defaults apply (`status` 'active',
`mention_count` 1, timestamps `CURRENT_TIMESTAMP`) and the initial
evidence array holds the one entry.  On duplicate key: `mention_count`
increments, one evidence entry is appended, severity escalates only when
`FIELD(VALUES(severity),...) > FIELD(severity,...)`, `last_seen_at` is
refreshed, and a `resolved` concern is reopened (`resolved_at` cleared,
`status` back to 'active'). -/
def upsertConcernRow (now today : String) (freshId : Nat) (c : ConcernInput)
    (row : Option MemoryConcern) : MemoryConcern :=
  match row with
  | none =>
    { id := freshId
      concernKey := c.concernKey
      displayName := c.displayName
      severity := c.severity
      status := Status.active
      mentionCount := 1
      evidence := [{ text := c.evidenceText, source := c.source, date := today }]
      firstSeenAt := now
      lastSeenAt := now
      resolvedAt := none
      followupDue := none }
  | some r =>
    { r with
      mentionCount := r.mentionCount + 1
      evidence := r.evidence ++ [{ text := c.evidenceText, source := c.source, date := today }]
      severity := if sevField c.severity > sevField r.severity then c.severity else r.severity
      lastSeenAt := now
      resolvedAt := if r.status = Status.resolved then none else r.resolvedAt
      status := if r.status = Status.resolved then Status.active else r.status }

/-- A sequence of row-level concern upserts for one key, in presentation
order. -/
def upsertSeqRow (now today : String) : List ConcernInput → Option MemoryConcern → Option MemoryConcern
  | [], row => row
  | c :: rest, row => upsertSeqRow now today rest (some (upsertConcernRow now today 0 c row))

/-- `updateConcernStatus` from the source, modelled on the single row for
the given key: the runtime guard rejects any status outside
improving/resolved/escalated with no write and `updated = 0`; 'resolved'
stamps `resolved_at = now`; improving/escalated clear `resolved_at`.
`updated` is the number of rows the UPDATE matched (0 when the key has no
row). -/
def updateConcernStatus (now : String) (status : String) (row : Option MemoryConcern) :
    Option MemoryConcern × Nat :=
  if (["improving", "resolved", "escalated"].contains status) = false then
    (row, 0)
  else
    match row with
    | none => (none, 0)
    | some r =>
      if status = "resolved" then
        (some { r with status := Status.resolved, resolvedAt := some now }, 1)
      else
        (some { r with
                 status := if status = "improving" then Status.improving else Status.escalated,
                 resolvedAt := none }, 1)

-- ── Profile store (upsertProfile, sequential semantics) ─────────────

/-- `upsertProfile` from the source, under sequential execution: the
result is (new stored row, `updated`, `newVersion`).
`expectedVersion == 0` takes the `INSERT ... ON DUPLICATE KEY UPDATE`
path and reports `newVersion = 1` unconditionally; otherwise the
conditional `UPDATE ... WHERE version = expectedVersion` runs, and on a
version mismatch (zero rows affected) the current row is re-read and the
update retried once at the fresh version (which, sequentially, succeeds),
falling back to a fresh insert when the row has disappeared. -/
def upsertProfile (now : String) (st : Option MemoryProfile) (updates : JVal)
    (expectedVersion : Nat) : Option MemoryProfile × Bool × Nat :=
  if expectedVersion = 0 then
    match st with
    | none =>
      (some { profileData := updates, version := 1, lastInteractionAt := some now }, true, 1)
    | some p =>
      (some { profileData := jsonMergePatch p.profileData updates,
              version := p.version + 1, lastInteractionAt := some now }, true, 1)
  else
    match st with
    | some p =>
      if p.version = expectedVersion then
        (some { profileData := jsonMergePatch p.profileData updates,
                version := p.version + 1, lastInteractionAt := some now },
         true, expectedVersion + 1)
      else
        -- zero rows affected: re-read (sequentially returns p) and retry
        -- once with the fresh version, which then matches
        (some { profileData := jsonMergePatch p.profileData updates,
                version := p.version + 1, lastInteractionAt := some now },
         true, p.version + 1)
    | none =>
      -- zero rows affected and the re-read finds no row: fresh insert
      (some { profileData := updates, version := 1, lastInteractionAt := some now }, true, 1)

-- ── Database state and error model ──────────────────────────────────

/-- The tables touched by the provider, for a single tenant.
`memoryFile` is the tenant's `MEMORY.md` row in `tenant_bootstrap_files`. -/
structure DBState where
  profile : Option MemoryProfile
  episodes : List MemoryEpisode
  nextEpisodeId : Nat
  concerns : List MemoryConcern
  nextConcernId : Nat
  memoryFile : Option String

/-- A backend error as the source observes it: mysql2 exposes `errno` and
`code` on the thrown object. -/
structure SqlError where
  errno : Int
  code : String
deriving DecidableEq, Repr

/-- The deadlock test of `ingest`'s catch block:
`err?.errno === 1213 || err?.code === "ER_LOCK_DEADLOCK"`. -/
def isDeadlockErr (e : SqlError) : Bool :=
  e.errno == 1213 || e.code == "ER_LOCK_DEADLOCK"

/-- An in-flight transaction: the connection's uncommitted view of the
database and the index of the next statement to execute. -/
structure Tx where
  db : DBState
  k : Nat

/-- Execute one SQL statement of the transaction: the injection `inj`
decides whether the backend raises on this statement (in which case it has
no effect); otherwise the statement's effect is applied to the
uncommitted state. -/
def step (inj : Nat → Option SqlError) (t : Tx) (eff : DBState → DBState) :
    Except SqlError Tx :=
  match inj t.k with
  | some e => Except.error e
  | none => Except.ok { db := eff t.db, k := t.k + 1 }

-- ── Table-level operations used inside ingest ───────────────────────

/-- Table-level effect of the concern `INSERT ... ON DUPLICATE KEY UPDATE`
(keyed by `concern_key`; the tenant is fixed). -/
def upsertConcernDB (now today : String) (c : ConcernInput) (db : DBState) : DBState :=
  if db.concerns.any (fun r => r.concernKey == c.concernKey) then
    { db with concerns := db.concerns.map (fun r =>
        if r.concernKey == c.concernKey then upsertConcernRow now today 0 c (some r) else r) }
  else
    { db with
      concerns := db.concerns ++ [upsertConcernRow now today db.nextConcernId c none]
      nextConcernId := db.nextConcernId + 1 }

/-- The result record of one concern upsert. -/
structure ConcernWrite where
  id : Nat
  mentionCount : Nat
deriving DecidableEq, Repr

/-- The `SELECT id, mention_count ... WHERE concern_key = ?` read-back
after a concern upsert, with the source's `{id: 0, mentionCount: 1}`
fallback for an empty result. -/
def readConcernWrite (db : DBState) (key : String) : ConcernWrite :=
  match db.concerns.find? (fun r => r.concernKey == key) with
  | some r => { id := r.id, mentionCount := r.mentionCount }
  | none => { id := 0, mentionCount := 1 }

/-- `getActiveConcerns`: status IN ('active','improving','escalated'),
ordered by severity (critical first) then `last_seen_at` descending. -/
def getActiveConcernsDB (db : DBState) : List MemoryConcern :=
  sortBy
    (fun a b => sevOrd a.severity < sevOrd b.severity
      || (sevOrd a.severity == sevOrd b.severity && decide (b.lastSeenAt ≤ a.lastSeenAt)))
    (db.concerns.filter (fun r =>
      r.status == Status.active || r.status == Status.improving || r.status == Status.escalated))

/-- `getRecentEpisodes` (no type filter): non-superseded rows, newest
first, limited. -/
def getRecentEpisodesDB (db : DBState) (limit : Nat) : List MemoryEpisode :=
  (sortBy (fun a b => decide (b.createdAt ≤ a.createdAt))
    (db.episodes.filter (fun e => e.isSuperseded == false))).take limit

-- ── Ingest orchestrator ─────────────────────────────────────────────

/-- The argument record of one episode insert. -/
structure EpisodeInput where
  episodeType : String
  channel : String
  content : String
  metadata : Option JVal

/-- The options record of `ingest`. -/
structure IngestOpts where
  profileUpdates : Option (List (String × JVal))
  episode : Option EpisodeInput
  concerns : Option (List ConcernInput)
  render : Option Bool

/-- The profile part of an ingest result. -/
structure ProfileWrite where
  updated : Bool
  newVersion : Nat
deriving DecidableEq, Repr

/-- The result record of `ingest` (the episode part is the inserted id). -/
structure IngestResult where
  profile : Option ProfileWrite
  episode : Option Nat
  concerns : Option (List ConcernWrite)
  render : Option Bool
deriving DecidableEq, Repr

/-- The medical_facts pre-merge of ingest step 1b: when the incoming
updates carry a non-empty `medical_facts` array, it is replaced by the
merge against the facts observed in the locked snapshot. -/
def mergeFactsIntoUpdates (current : Option MemoryProfile) (fs : List (String × JVal)) :
    List (String × JVal) :=
  match getField fs "medical_facts" with
  | JVal.arr xs =>
    if xs.length > 0 then
      let existingFacts :=
        match current with
        | some p =>
          match p.profileData with
          | JVal.obj pfs =>
            match getField pfs "medical_facts" with
            | JVal.arr ys => ys
            | _ => []
          | _ => []
        | none => []
      setField fs "medical_facts" (JVal.arr (mergeMedicalFacts existingFacts xs))
    else fs
  | _ => fs

/-- The concern loop of ingest step 3: for each input concern, one upsert
statement then one read-back statement, collecting `{id, mentionCount}`
in input order. -/
def ingestConcernsLoop (now today : String) (inj : Nat → Option SqlError) :
    Tx → List ConcernInput → Except SqlError (Tx × List ConcernWrite)
  | t, [] => Except.ok (t, [])
  | t, c :: rest => do
    let t1 ← step inj t (upsertConcernDB now today c)
    let t2 ← step inj t1 id
    let w := readConcernWrite t2.db c.concernKey
    let (t3, ws) ← ingestConcernsLoop now today inj t2 rest
    Except.ok (t3, w :: ws)

/-- One transactional attempt of `ingest`: begin, optional profile
update under `SELECT ... FOR UPDATE` with the medical_facts pre-merge,
optional episode insert, concern upserts in order, the in-transaction
render (unless `render === false`), and commit.  Any statement error
aborts the attempt; the caller observes the pre-transaction state
(rollback). -/
def ingestAttempt (now today : String) (inj : Nat → Option SqlError)
    (db : DBState) (opts : IngestOpts) : Except SqlError (DBState × IngestResult) := do
  let t ← step inj { db := db, k := 0 } id  -- beginTransaction
  -- 1. profile update (with FOR UPDATE lock + medical_facts merge)
  let pr ←
    match opts.profileUpdates with
    | some fs =>
      if fs.length > 0 then do
        let t1 ← step inj t id  -- SELECT ... FOR UPDATE
        let current := t1.db.profile
        let currentVersion := match current with | some p => p.version | none => 0
        let updates := mergeFactsIntoUpdates current fs
        if currentVersion = 0 then do
          let t2 ← step inj t1 (fun d =>
            { d with profile := some { profileData := JVal.obj updates, version := 1,
                                       lastInteractionAt := some now } })
          pure (t2, some { updated := true, newVersion := 1 })
        else do
          let t2 ← step inj t1 (fun d =>
            { d with profile := d.profile.map (fun p =>
                { profileData := jsonMergePatch p.profileData (JVal.obj updates),
                  version := p.version + 1, lastInteractionAt := some now }) })
          pure (t2, some { updated := true, newVersion := currentVersion + 1 })
      else
        pure (t, (none : Option ProfileWrite))
    | none => pure (t, (none : Option ProfileWrite))
  let (t, profileRes) := pr
  -- 2. episode insert
  let er ←
    match opts.episode with
    | some ep => do
      let newId := t.db.nextEpisodeId
      let t2 ← step inj t (fun d =>
        { d with
          episodes := d.episodes ++ [{ id := d.nextEpisodeId, episodeType := ep.episodeType,
                                       channel := ep.channel, content := ep.content,
                                       metadata := ep.metadata, isSuperseded := false,
                                       createdAt := now }]
          nextEpisodeId := d.nextEpisodeId + 1 })
      pure (t2, some newId)
    | none => pure (t, (none : Option Nat))
  let (t, episodeRes) := er
  -- 3. concern upserts
  let cr ←
    match opts.concerns with
    | some cs =>
      if cs.length > 0 then do
        let (t2, ws) ← ingestConcernsLoop now today inj t cs
        pure (t2, some ws)
      else
        pure (t, (none : Option (List ConcernWrite)))
    | none => pure (t, (none : Option (List ConcernWrite)))
  let (t, concernsRes) := cr
  -- 4. render MEMORY.md inside the transaction (unless render === false)
  let rr ←
    if opts.render ≠ some false then do
      let t1 ← step inj t id  -- SELECT profile
      let renderProfile := t1.db.profile
      let t2 ← step inj t1 id  -- SELECT active concerns
      let renderConcerns := getActiveConcernsDB t2.db
      let t3 ← step inj t2 id  -- SELECT recent episodes LIMIT 10
      let renderEpisodes := getRecentEpisodesDB t3.db 10
      match assembleMemoryMarkdown renderProfile renderConcerns renderEpisodes with
      | some content => do
        let t4 ← step inj t3 (fun d => { d with memoryFile := some content })
        pure (t4, some true)
      | none => pure (t3, some false)
    else
      pure (t, (none : Option Bool))
  let (t, renderRes) := rr
  let tEnd ← step inj t id  -- commit
  Except.ok (tEnd.db,
    { profile := profileRes, episode := episodeRes, concerns := concernsRes, render := renderRes })

/-- `ingest` with its `retryCount` parameter, as the source's
retry-by-recursion: a failed attempt rolls back (the caller keeps the
pre-transaction state); a deadlock-classified error with `retryCount < 1`
retries the entire operation on a fresh connection (`inj (retryCount+1)`);
any other error propagates unchanged. -/
def ingestFrom (now today : String) (inj : Nat → Nat → Option SqlError)
    (db : DBState) (opts : IngestOpts) (retryCount : Nat) :
    DBState × Except SqlError IngestResult :=
  match ingestAttempt now today (inj retryCount) db opts with
  | Except.ok r => (r.fst, Except.ok r.snd)
  | Except.error e =>
    if h : isDeadlockErr e = true ∧ retryCount < 1 then
      ingestFrom now today inj db opts (retryCount + 1)
    else
      (db, Except.error e)
termination_by 2 - retryCount
decreasing_by simp_wf; omega

/-- The public `ingest` entry point (`retryCount` defaults to 0). -/
def ingest (now today : String) (inj : Nat → Nat → Option SqlError)
    (db : DBState) (opts : IngestOpts) : DBState × Except SqlError IngestResult :=
  ingestFrom now today inj db opts 0

-- ── Theorems ────────────────────────────────────────────────────────

/-- A single row-level concern upsert never lowers the severity rank. -/
theorem upsertConcernRow_sev_le (now today : String) (freshId : Nat) (c : ConcernInput)
    (r : MemoryConcern) :
    sevField r.severity ≤ sevField (upsertConcernRow now today freshId c (some r)).severity := by
  simp only [upsertConcernRow]
  split
  · next h => exact Nat.le_of_lt h
  · exact Nat.le_refl _

/-- Across a sequence of row-level upserts for one key, the severity rank
never decreases. -/
theorem upsertSeqRow_sev_mono (now today : String) (incs : List ConcernInput) :
    ∀ (r q : MemoryConcern), upsertSeqRow now today incs (some r) = some q →
      sevField r.severity ≤ sevField q.severity := by
  induction incs with
  | nil =>
    intro r q h
    cases h
    exact Nat.le_refl _
  | cons c rest ih =>
    intro r q h
    exact Nat.le_trans (upsertConcernRow_sev_le now today 0 c r)
      (ih (upsertConcernRow now today 0 c (some r)) q h)

/-- Claim C3: the stored severity after an upsert on an existing row is the
maximum of the stored and incoming severities under low < medium < high <
critical, so severity is monotonically non-decreasing across any sequence
of upserts; each repeated upsert increments `mentionCount` by exactly one
and appends exactly one evidence entry; and three upserts with severities
medium, high, low on one key yield mentionCount 3, severity high and three
evidence entries. -/
theorem C3_severity_max_monotone (now today : String) (freshId : Nat) (c : ConcernInput)
    (r : MemoryConcern) (incs : List ConcernInput) :
    (sevField r.severity ≤ sevField (upsertConcernRow now today freshId c (some r)).severity ∧
     sevField c.severity ≤ sevField (upsertConcernRow now today freshId c (some r)).severity ∧
     ((upsertConcernRow now today freshId c (some r)).severity = r.severity ∨
      (upsertConcernRow now today freshId c (some r)).severity = c.severity)) ∧
    (upsertConcernRow now today freshId c (some r)).mentionCount = r.mentionCount + 1 ∧
    (upsertConcernRow now today freshId c (some r)).evidence.length = r.evidence.length + 1 ∧
    (∀ q, upsertSeqRow now today incs (some r) = some q →
      sevField r.severity ≤ sevField q.severity) ∧
    (∀ q, upsertSeqRow now today
        [{ concernKey := "sleep", displayName := "睡眠", severity := Severity.medium,
           evidenceText := "e1", source := "s1" },
         { concernKey := "sleep", displayName := "睡眠", severity := Severity.high,
           evidenceText := "e2", source := "s2" },
         { concernKey := "sleep", displayName := "睡眠", severity := Severity.low,
           evidenceText := "e3", source := "s3" }] none = some q →
      q.mentionCount = 3 ∧ q.severity = Severity.high ∧ q.evidence.length = 3) := by
  refine ⟨⟨upsertConcernRow_sev_le now today freshId c r, ?_, ?_⟩, ?_, ?_, ?_, ?_⟩
  · simp only [upsertConcernRow]
    split
    · exact Nat.le_refl _
    · next h => omega
  · simp only [upsertConcernRow]
    split
    · exact Or.inr rfl
    · exact Or.inl rfl
  · simp [upsertConcernRow]
  · simp [upsertConcernRow]
  · exact fun q => upsertSeqRow_sev_mono now today incs r q
  · intro q h
    simp only [upsertSeqRow, upsertConcernRow, sevField] at h
    norm_num at h
    rw [← h]
    exact ⟨rfl, rfl, rfl⟩

/-- Claim C3 witness: a concrete three-upsert run. -/
theorem C3_witness :
    ∃ q, upsertSeqRow "2025-01-01 00:00:00" "2025-01-01"
        [{ concernKey := "sleep", displayName := "睡眠", severity := Severity.medium,
           evidenceText := "e1", source := "s1" },
         { concernKey := "sleep", displayName := "睡眠", severity := Severity.high,
           evidenceText := "e2", source := "s2" },
         { concernKey := "sleep", displayName := "睡眠", severity := Severity.low,
           evidenceText := "e3", source := "s3" }] none = some q ∧
      q.mentionCount = 3 ∧ q.severity = Severity.high ∧ q.evidence.length = 3 := by
  refine ⟨_, rfl, ?_⟩
  exact (C3_severity_max_monotone "2025-01-01 00:00:00" "2025-01-01" 0
    { concernKey := "sleep", displayName := "睡眠", severity := Severity.medium,
      evidenceText := "e1", source := "s1" }
    { id := 0, concernKey := "sleep", displayName := "睡眠", severity := Severity.medium,
      status := Status.active, mentionCount := 1, evidence := [],
      firstSeenAt := "F", lastSeenAt := "L", resolvedAt := none, followupDue := none }
    []).2.2.2.2 _ rfl

/-- Claim C6: upserting a concern whose stored status is `resolved` sets
the status back to `active` and clears `resolvedAt`; for any other stored
status both fields are left unchanged. -/
theorem C6_reopen_resolved (now today : String) (freshId : Nat) (c : ConcernInput)
    (r : MemoryConcern) :
    (r.status = Status.resolved →
      (upsertConcernRow now today freshId c (some r)).status = Status.active ∧
      (upsertConcernRow now today freshId c (some r)).resolvedAt = none) ∧
    (r.status ≠ Status.resolved →
      (upsertConcernRow now today freshId c (some r)).status = r.status ∧
      (upsertConcernRow now today freshId c (some r)).resolvedAt = r.resolvedAt) := by
  constructor
  · intro h
    simp [upsertConcernRow, h]
  · intro h
    simp [upsertConcernRow, h]

/-- Claim C6 witness: one resolved and one active concrete row. -/
theorem C6_witness :
    ((upsertConcernRow "N" "D" 0
        { concernKey := "k", displayName := "K", severity := Severity.low,
          evidenceText := "e", source := "s" }
        (some { id := 1, concernKey := "k", displayName := "K", severity := Severity.medium,
                status := Status.resolved, mentionCount := 2, evidence := [],
                firstSeenAt := "F", lastSeenAt := "L", resolvedAt := some "R",
                followupDue := none })).status = Status.active ∧
     (upsertConcernRow "N" "D" 0
        { concernKey := "k", displayName := "K", severity := Severity.low,
          evidenceText := "e", source := "s" }
        (some { id := 1, concernKey := "k", displayName := "K", severity := Severity.medium,
                status := Status.resolved, mentionCount := 2, evidence := [],
                firstSeenAt := "F", lastSeenAt := "L", resolvedAt := some "R",
                followupDue := none })).resolvedAt = none) ∧
    ((upsertConcernRow "N" "D" 0
        { concernKey := "k", displayName := "K", severity := Severity.low,
          evidenceText := "e", source := "s" }
        (some { id := 1, concernKey := "k", displayName := "K", severity := Severity.medium,
                status := Status.improving, mentionCount := 2, evidence := [],
                firstSeenAt := "F", lastSeenAt := "L", resolvedAt := none,
                followupDue := none })).status = Status.improving ∧
     (upsertConcernRow "N" "D" 0
        { concernKey := "k", displayName := "K", severity := Severity.low,
          evidenceText := "e", source := "s" }
        (some { id := 1, concernKey := "k", displayName := "K", severity := Severity.medium,
                status := Status.improving, mentionCount := 2, evidence := [],
                firstSeenAt := "F", lastSeenAt := "L", resolvedAt := none,
                followupDue := none })).resolvedAt = none) :=
  ⟨(C6_reopen_resolved "N" "D" 0 _ _).1 rfl,
   (C6_reopen_resolved "N" "D" 0 _ _).2 (by decide)⟩

/-- Claim C9: `updateConcernStatus` with 'resolved' stamps `resolvedAt`
with the current time; 'improving'/'escalated' clear `resolvedAt`; any
status outside the allowed set performs no write and returns
`updated = 0`. -/
theorem C9_updateConcernStatus (now s : String) (row : Option MemoryConcern)
    (r : MemoryConcern) :
    (s = "resolved" →
      updateConcernStatus now s (some r) =
        (some { r with status := Status.resolved, resolvedAt := some now }, 1)) ∧
    (s = "improving" →
      updateConcernStatus now s (some r) =
        (some { r with status := Status.improving, resolvedAt := none }, 1)) ∧
    (s = "escalated" →
      updateConcernStatus now s (some r) =
        (some { r with status := Status.escalated, resolvedAt := none }, 1)) ∧
    (s ∉ (["improving", "resolved", "escalated"] : List String) →
      updateConcernStatus now s row = (row, 0)) := by
  refine ⟨?_, ?_, ?_, ?_⟩
  · intro h
    subst h
    simp [updateConcernStatus]
  · intro h
    subst h
    simp [updateConcernStatus]
  · intro h
    subst h
    simp [updateConcernStatus]
  · intro h
    have hc : (["improving", "resolved", "escalated"].contains s) = false := by
      simp only [List.contains_eq_any_beq, List.any_eq_false, beq_iff_eq]
      intro x hx hsx
      exact h (hsx ▸ hx)
    unfold updateConcernStatus
    rw [if_pos hc]

/-- Claim C9 witness: the three allowed statuses and one rejected status on
concrete rows. -/
theorem C9_witness :
    (updateConcernStatus "N" "resolved"
      (some { id := 1, concernKey := "k", displayName := "K", severity := Severity.low,
              status := Status.active, mentionCount := 1, evidence := [],
              firstSeenAt := "F", lastSeenAt := "L", resolvedAt := none, followupDue := none }) =
      (some { id := 1, concernKey := "k", displayName := "K", severity := Severity.low,
              status := Status.resolved, mentionCount := 1, evidence := [],
              firstSeenAt := "F", lastSeenAt := "L", resolvedAt := some "N",
              followupDue := none }, 1)) ∧
    (updateConcernStatus "N" "improving"
      (some { id := 1, concernKey := "k", displayName := "K", severity := Severity.low,
              status := Status.resolved, mentionCount := 1, evidence := [],
              firstSeenAt := "F", lastSeenAt := "L", resolvedAt := some "R",
              followupDue := none }) =
      (some { id := 1, concernKey := "k", displayName := "K", severity := Severity.low,
              status := Status.improving, mentionCount := 1, evidence := [],
              firstSeenAt := "F", lastSeenAt := "L", resolvedAt := none,
              followupDue := none }, 1)) ∧
    (updateConcernStatus "N" "deleted"
      (some { id := 1, concernKey := "k", displayName := "K", severity := Severity.low,
              status := Status.active, mentionCount := 1, evidence := [],
              firstSeenAt := "F", lastSeenAt := "L", resolvedAt := none, followupDue := none }) =
      (some { id := 1, concernKey := "k", displayName := "K", severity := Severity.low,
              status := Status.active, mentionCount := 1, evidence := [],
              firstSeenAt := "F", lastSeenAt := "L", resolvedAt := none,
              followupDue := none }, 0)) :=
  ⟨(C9_updateConcernStatus "N" "resolved" none _).1 rfl,
   (C9_updateConcernStatus "N" "improving" none _).2.1 rfl,
   (C9_updateConcernStatus "N" "deleted"
      (some { id := 1, concernKey := "k", displayName := "K", severity := Severity.low,
              status := Status.active, mentionCount := 1, evidence := [],
              firstSeenAt := "F", lastSeenAt := "L", resolvedAt := none, followupDue := none })
      { id := 1, concernKey := "k", displayName := "K", severity := Severity.low,
        status := Status.active, mentionCount := 1, evidence := [],
        firstSeenAt := "F", lastSeenAt := "L", resolvedAt := none,
        followupDue := none }).2.2.2 (by decide)⟩

/-- Claim C7 counterexample: a present profile whose data is the empty
object, with no concerns and no episodes, renders a non-null document (the
header alone), where the claim requires null for an absent-or-empty
profile with empty lists. -/
theorem C7_counterexample :
    assembleMemoryMarkdown
      (some { profileData := JVal.obj [], version := 1, lastInteractionAt := none }) [] []
      = some "# 记忆档案\n" ∧
    assembleMemoryMarkdown
      (some { profileData := JVal.obj [], version := 1, lastInteractionAt := none }) [] []
      ≠ none := by
  constructor
  · rfl
  · intro h
    rw [show assembleMemoryMarkdown
        (some { profileData := JVal.obj [], version := 1, lastInteractionAt := none }) [] []
        = some "# 记忆档案\n" from rfl] at h
    exact Option.noConfusion h

/-- Claim C7 (amended): the render returns null exactly when the profile is
absent (null) and the concern and episode lists are empty; in particular
`render(null, [], [])` is null, and any present profile — even one with
empty data — yields a non-null document. -/
theorem C7_render_none_iff (p : Option MemoryProfile) (cs : List MemoryConcern)
    (es : List MemoryEpisode) :
    (assembleMemoryMarkdown p cs es = none ↔ (p = none ∧ cs = [] ∧ es = [])) ∧
    assembleMemoryMarkdown none [] [] = none := by
  constructor
  · unfold assembleMemoryMarkdown
    split
    · next h =>
      simp only [Bool.and_eq_true, Option.isNone_iff_eq_none, beq_iff_eq,
        List.length_eq_zero] at h
      obtain ⟨⟨hp, hcs⟩, hes⟩ := h
      simp [hp, hcs, hes]
    · next h =>
      constructor
      · intro hsome
        exact absurd hsome (Option.some_ne_none _)
      · intro hcon
        obtain ⟨hp, hcs, hes⟩ := hcon
        subst hp
        subst hcs
        subst hes
        exact absurd rfl h
  · rfl

/-- Claim C8: in rendered episode lines, content over 100 characters is
cut to its first 100 characters followed by the three-character ellipsis
marker, so the line ends in the marker with at most 100 content characters
before it; content of 100 characters or fewer is rendered unmodified with
no marker. -/
theorem C8_truncation (e : MemoryEpisode) :
    (e.content.length > 100 →
      episodeLine e =
        ("- [" ++ fmtDate e.createdAt ++ " " ++ e.channel ++ "] " ++ e.content.take 100)
          ++ "..." ∧
      (e.content.take 100).length ≤ 100) ∧
    (e.content.length ≤ 100 →
      truncate e.content 100 = e.content ∧
      episodeLine e = "- [" ++ fmtDate e.createdAt ++ " " ++ e.channel ++ "] " ++ e.content) := by
  constructor
  · intro h
    constructor
    · unfold episodeLine truncate
      rw [if_pos h]
      simp only [String.append_assoc]
    · rw [String.take_eq, String.length_mk, List.length_take]
      exact Nat.min_le_left _ _
  · intro h
    have ht : truncate e.content 100 = e.content := by
      unfold truncate
      rw [if_neg (by omega)]
    exact ⟨ht, by unfold episodeLine; rw [ht]⟩

/-- Claim C8 witness: a 101-character content is truncated with the
marker; a short content is rendered unmodified. -/
theorem C8_witness :
    (episodeLine { id := 1, episodeType := "conversation", channel := "web",
                   content := String.mk (List.replicate 101 'a'), metadata := none,
                   isSuperseded := false, createdAt := "2025-01-02 03:04:05" } =
      ("- [" ++ fmtDate "2025-01-02 03:04:05" ++ " " ++ "web" ++ "] "
        ++ (String.mk (List.replicate 101 'a')).take 100) ++ "..." ∧
     ((String.mk (List.replicate 101 'a')).take 100).length ≤ 100) ∧
    (truncate "short" 100 = "short" ∧
     episodeLine { id := 2, episodeType := "conversation", channel := "web",
                   content := "short", metadata := none, isSuperseded := false,
                   createdAt := "2025-01-02 03:04:05" } =
      "- [" ++ fmtDate "2025-01-02 03:04:05" ++ " " ++ "web" ++ "] " ++ "short") :=
  ⟨(C8_truncation { id := 1, episodeType := "conversation", channel := "web",
                    content := String.mk (List.replicate 101 'a'), metadata := none,
                    isSuperseded := false, createdAt := "2025-01-02 03:04:05" }).1 (by decide),
   (C8_truncation { id := 2, episodeType := "conversation", channel := "web",
                    content := "short", metadata := none, isSuperseded := false,
                    createdAt := "2025-01-02 03:04:05" }).2 (by decide)⟩

/-- Claim C4 counterexample: calling `upsertProfile` with
`expectedVersion = 0` while a row already exists (the racing-insert merge
path) bumps the stored version to 2 but reports `newVersion = 1`, so the
returned `newVersion` does not equal the version actually stored. -/
theorem C4_counterexample :
    (upsertProfile "N" (some { profileData := JVal.obj [], version := 1,
                               lastInteractionAt := none }) (JVal.obj []) 0).2.2 = 1 ∧
    (upsertProfile "N" (some { profileData := JVal.obj [], version := 1,
                               lastInteractionAt := none }) (JVal.obj []) 0).1 =
      some { profileData := JVal.obj [], version := 2, lastInteractionAt := some "N" } ∧
    (1 : Nat) ≠ 2 := by
  refine ⟨rfl, rfl, by decide⟩

/-- Claim C4 (amended): the profile version starts effectively at 0 (no
row), becomes 1 on the first write, and every successful `upsertProfile`
on an existing row increments the stored version by exactly 1; the
returned `newVersion` equals the stored version whenever no row existed or
`expectedVersion ≥ 1` — the exception being the `expectedVersion = 0`
merge path on an existing row, which bumps the version but reports 1; and
a stale non-zero `expectedVersion` never applies at the stale version: the
conditional update matches zero rows, the row is re-read, and the update
is retried once at the freshly read version. -/
theorem C4_version_discipline (now : String) (updates : JVal) (expectedVersion : Nat)
    (p : MemoryProfile) :
    (upsertProfile now none updates expectedVersion =
      (some { profileData := updates, version := 1, lastInteractionAt := some now },
       true, 1)) ∧
    (∀ q b n, upsertProfile now (some p) updates expectedVersion = (some q, b, n) →
      q.version = p.version + 1) ∧
    (expectedVersion ≠ 0 →
      ∀ q b n, upsertProfile now (some p) updates expectedVersion = (some q, b, n) →
        n = q.version) ∧
    (expectedVersion ≠ 0 → expectedVersion ≠ p.version →
      upsertProfile now (some p) updates expectedVersion =
        (some { profileData := jsonMergePatch p.profileData updates,
                version := p.version + 1, lastInteractionAt := some now },
         true, p.version + 1)) := by
  refine ⟨?_, ?_, ?_, ?_⟩
  · by_cases h0 : expectedVersion = 0
    · simp [upsertProfile, h0]
    · simp [upsertProfile, h0]
  · intro q b n h
    by_cases h0 : expectedVersion = 0
    · simp only [upsertProfile, if_pos h0] at h
      simp only [Prod.mk.injEq, Option.some.injEq] at h
      rw [← h.1]
    · simp only [upsertProfile, if_neg h0] at h
      by_cases hv : p.version = expectedVersion
      · rw [if_pos hv] at h
        simp only [Prod.mk.injEq, Option.some.injEq] at h
        rw [← h.1]
      · rw [if_neg hv] at h
        simp only [Prod.mk.injEq, Option.some.injEq] at h
        rw [← h.1]
  · intro hev q b n h
    simp only [upsertProfile, if_neg hev] at h
    by_cases hv : p.version = expectedVersion
    · rw [if_pos hv] at h
      simp only [Prod.mk.injEq, Option.some.injEq] at h
      rw [← h.1, ← h.2.2, hv]
    · rw [if_neg hv] at h
      simp only [Prod.mk.injEq, Option.some.injEq] at h
      rw [← h.1, ← h.2.2]
  · intro hev hne
    simp only [upsertProfile, if_neg hev]
    rw [if_neg (fun hv : p.version = expectedVersion => hne hv.symm)]

/-- Claim C4 witness: concrete first insert, successful conditional
update, and stale-version retry. -/
theorem C4_witness :
    (upsertProfile "N" none (JVal.obj [("a", JVal.num 1)]) 0 =
      (some { profileData := JVal.obj [("a", JVal.num 1)], version := 1,
              lastInteractionAt := some "N" }, true, 1)) ∧
    (∀ q b n, upsertProfile "N"
        (some { profileData := JVal.obj [], version := 3, lastInteractionAt := none })
        (JVal.obj []) 3 = (some q, b, n) → q.version = 4 ∧ n = q.version) ∧
    (upsertProfile "N"
        (some { profileData := JVal.obj [], version := 5, lastInteractionAt := none })
        (JVal.obj []) 2 =
      (some { profileData := jsonMergePatch (JVal.obj []) (JVal.obj []),
              version := 6, lastInteractionAt := some "N" }, true, 6)) := by
  refine ⟨?_, ?_, ?_⟩
  · exact (C4_version_discipline "N" (JVal.obj [("a", JVal.num 1)]) 0
      { profileData := JVal.obj [], version := 0, lastInteractionAt := none }).1
  · intro q b n h
    exact ⟨(C4_version_discipline "N" (JVal.obj []) 3
        { profileData := JVal.obj [], version := 3, lastInteractionAt := none }).2.1
        q b n h,
      ((C4_version_discipline "N" (JVal.obj []) 3
        { profileData := JVal.obj [], version := 3, lastInteractionAt := none }).2.2.1
        (by decide) q b n h).symm ▸ rfl⟩
  · exact (C4_version_discipline "N" (JVal.obj []) 2
      { profileData := JVal.obj [], version := 5, lastInteractionAt := none }).2.2.2
      (by decide) (by decide)

/-- Structure of a merge run: the result is the accumulator followed by a
subsequence of the incoming list whose elements have truthy keys that are
strictly equal neither to any accumulator entry's key nor to each
other's. -/
theorem mergeMedicalFacts_decomp (incoming : List JVal) :
    ∀ existing : List JVal, ∃ l,
      mergeMedicalFacts existing incoming = existing ++ l ∧
      List.Sublist l incoming ∧
      (∀ nf ∈ l, jvalTruthy (factText nf) = true ∧
        (existing.any fun ef => jsStrictEq (factText ef) (factText nf)) = false) ∧
      List.Pairwise (fun a b => jsStrictEq (factText a) (factText b) = false) l := by
  induction incoming with
  | nil =>
    intro existing
    exact ⟨[], by simp [mergeMedicalFacts], List.Sublist.slnil, by simp, List.Pairwise.nil⟩
  | cons nf rest ih =>
    intro existing
    cases h1 : jvalTruthy (factText nf) with
    | false =>
      obtain ⟨l, hl, hs, hp, hpw⟩ := ih existing
      refine ⟨l, ?_, List.Sublist.cons nf hs, hp, hpw⟩
      simpa [mergeMedicalFacts, h1] using hl
    | true =>
      cases h2 : (existing.any fun ef => jsStrictEq (factText ef) (factText nf)) with
      | true =>
        obtain ⟨l, hl, hs, hp, hpw⟩ := ih existing
        refine ⟨l, ?_, List.Sublist.cons nf hs, hp, hpw⟩
        simpa [mergeMedicalFacts, h1, h2] using hl
      | false =>
        obtain ⟨l, hl, hs, hp, hpw⟩ := ih (existing ++ [nf])
        refine ⟨nf :: l, ?_, List.Sublist.cons₂ nf hs, ?_, ?_⟩
        · have hstep : mergeMedicalFacts existing (nf :: rest) =
              mergeMedicalFacts (existing ++ [nf]) rest := by
            simp [mergeMedicalFacts, h1, h2]
          rw [hstep, hl, List.append_assoc]
          rfl
        · intro x hx
          rcases List.mem_cons.mp hx with rfl | hx2
          · exact ⟨h1, h2⟩
          · obtain ⟨hxe, hxa⟩ := hp x hx2
            refine ⟨hxe, ?_⟩
            simp only [List.any_append, Bool.or_eq_false_iff] at hxa
            exact hxa.1
        · refine List.Pairwise.cons ?_ hpw
          intro x hx
          obtain ⟨hxe, hxa⟩ := hp x hx
          simp only [List.any_append, Bool.or_eq_false_iff, List.any_cons, List.any_nil,
            Bool.or_false] at hxa
          exact hxa.2

/-- If every incoming fact has a falsy key or a key strictly equal to an
accumulator entry's key, the merge leaves the accumulator unchanged. -/
theorem mergeMedicalFacts_all_present (incoming : List JVal) :
    ∀ existing : List JVal,
      (∀ nf ∈ incoming, jvalTruthy (factText nf) = false ∨
        (existing.any fun ef => jsStrictEq (factText ef) (factText nf)) = true) →
      mergeMedicalFacts existing incoming = existing := by
  induction incoming with
  | nil =>
    intro existing _
    rfl
  | cons nf rest ih =>
    intro existing h
    have hrest : ∀ x ∈ rest, jvalTruthy (factText x) = false ∨
        (existing.any fun ef => jsStrictEq (factText ef) (factText x)) = true :=
      fun x hx => h x (List.mem_cons_of_mem nf hx)
    cases h1 : jvalTruthy (factText nf) with
    | false =>
      have hstep : mergeMedicalFacts existing (nf :: rest) =
          mergeMedicalFacts existing rest := by
        simp [mergeMedicalFacts, h1]
      rw [hstep]
      exact ih existing hrest
    | true =>
      rcases h nf (List.mem_cons_self nf rest) with h1c | h2
      · rw [h1] at h1c
        cases h1c
      · have hstep : mergeMedicalFacts existing (nf :: rest) =
            mergeMedicalFacts existing rest := by
          simp [mergeMedicalFacts, h1, h2]
        rw [hstep]
        exact ih existing hrest

/-- Every incoming fact whose key is truthy and strictly equal to itself
(any primitive key) is represented by key in the merge result. -/
theorem mergeMedicalFacts_mem_key (incoming : List JVal) :
    ∀ (existing : List JVal) (nf : JVal), nf ∈ incoming →
      jvalTruthy (factText nf) = true →
      jsStrictEq (factText nf) (factText nf) = true →
      ((mergeMedicalFacts existing incoming).any fun x =>
        jsStrictEq (factText x) (factText nf)) = true := by
  induction incoming with
  | nil =>
    intro existing nf h
    cases h
  | cons a rest ih =>
    intro existing nf hmem htru hrefl
    rcases List.mem_cons.mp hmem with rfl | hmem2
    · cases h2 : (existing.any fun ef => jsStrictEq (factText ef) (factText nf)) with
      | true =>
        have hstep : mergeMedicalFacts existing (nf :: rest) =
            mergeMedicalFacts existing rest := by
          simp [mergeMedicalFacts, htru, h2]
        rw [hstep]
        obtain ⟨l, hl, -, -, -⟩ := mergeMedicalFacts_decomp rest existing
        rw [hl, List.any_append, h2, Bool.true_or]
      | false =>
        have hstep : mergeMedicalFacts existing (nf :: rest) =
            mergeMedicalFacts (existing ++ [nf]) rest := by
          simp [mergeMedicalFacts, htru, h2]
        rw [hstep]
        obtain ⟨l, hl, -, -, -⟩ := mergeMedicalFacts_decomp rest (existing ++ [nf])
        rw [hl, List.any_append, List.any_append]
        have hself : ([nf].any fun x => jsStrictEq (factText x) (factText nf)) = true := by
          simp [hrefl]
        rw [hself]
        simp
    · cases h1 : jvalTruthy (factText a) with
      | false =>
        have hstep : mergeMedicalFacts existing (a :: rest) =
            mergeMedicalFacts existing rest := by
          simp [mergeMedicalFacts, h1]
        rw [hstep]
        exact ih existing nf hmem2 htru hrefl
      | true =>
        cases h2 : (existing.any fun ef => jsStrictEq (factText ef) (factText a)) with
        | true =>
          have hstep : mergeMedicalFacts existing (a :: rest) =
              mergeMedicalFacts existing rest := by
            simp [mergeMedicalFacts, h1, h2]
          rw [hstep]
          exact ih existing nf hmem2 htru hrefl
        | false =>
          have hstep : mergeMedicalFacts existing (a :: rest) =
              mergeMedicalFacts (existing ++ [a]) rest := by
            simp [mergeMedicalFacts, h1, h2]
          rw [hstep]
          exact ih (existing ++ [a]) nf hmem2 htru hrefl

/-- Strict equality against a string key holds exactly for that string
value. -/
theorem jsStrictEq_str_right (v : JVal) (t : String) :
    jsStrictEq v (JVal.str t) = true ↔ v = JVal.str t := by
  cases v <;> simp [jsStrictEq]

/-- A list whose keys are pairwise strictly unequal matches a fixed string
key at most once. -/
theorem countP_le_one_of_pairwise_key (t : String) (l : List JVal)
    (h : List.Pairwise (fun a b => jsStrictEq (factText a) (factText b) = false) l) :
    l.countP (fun x => jsStrictEq (factText x) (JVal.str t)) ≤ 1 := by
  induction l with
  | nil => simp
  | cons a rest ih =>
    obtain ⟨ha, hrest⟩ := List.pairwise_cons.mp h
    cases hat : jsStrictEq (factText a) (JVal.str t) with
    | true =>
      have hta : factText a = JVal.str t := (jsStrictEq_str_right _ t).mp hat
      have h0 : rest.countP (fun x => jsStrictEq (factText x) (JVal.str t)) = 0 := by
        apply List.countP_eq_zero.mpr
        intro x hx hxt
        have hxta : factText x = JVal.str t := (jsStrictEq_str_right _ t).mp hxt
        have hax := ha x hx
        rw [hta, hxta] at hax
        simp [jsStrictEq] at hax
      rw [List.countP_cons, h0, if_pos hat]
    | false =>
      rw [List.countP_cons, if_neg (by rw [hat]; exact Bool.false_ne_true)]
      simpa using ih hrest

/-- Claim C5: the merge deduplicates by strict equality of resolved keys
and preserves relative order — the result is the existing entries in
their original order followed by a subsequence of the incoming entries in
input order whose keys are truthy, strictly equal to no existing entry's
key, and pairwise strictly unequal, so an incoming fact whose text equals
the text of an already-present fact is not appended again; consequently
merging a list of facts with non-empty string texts into itself returns
it unchanged. -/
theorem C5_merge_dedup_order (existing incoming xs : List JVal)
    (hxs : ∀ x ∈ xs, ∃ s, s ≠ "" ∧ factText x = JVal.str s) :
    (∃ l, mergeMedicalFacts existing incoming = existing ++ l ∧
      List.Sublist l incoming ∧
      (∀ nf ∈ l, jvalTruthy (factText nf) = true ∧
        ∀ ef ∈ existing, jsStrictEq (factText ef) (factText nf) = false) ∧
      List.Pairwise (fun a b => jsStrictEq (factText a) (factText b) = false) l) ∧
    mergeMedicalFacts xs xs = xs := by
  constructor
  · obtain ⟨l, hl, hs, hp, hpw⟩ := mergeMedicalFacts_decomp incoming existing
    refine ⟨l, hl, hs, ?_, hpw⟩
    intro nf hnf
    obtain ⟨h1, h2⟩ := hp nf hnf
    refine ⟨h1, ?_⟩
    intro ef hef
    cases he : jsStrictEq (factText ef) (factText nf) with
    | false => rfl
    | true =>
      have hany : (existing.any fun x => jsStrictEq (factText x) (factText nf)) = true :=
        List.any_eq_true.mpr ⟨ef, hef, he⟩
      rw [hany] at h2
      cases h2
  · apply mergeMedicalFacts_all_present
    intro nf hmem
    obtain ⟨s, hsne, hkey⟩ := hxs nf hmem
    refine Or.inr (List.any_eq_true.mpr ⟨nf, hmem, ?_⟩)
    rw [hkey]
    simp [jsStrictEq]

/-- Claim C10: incoming entries whose resolved key is falsy — in
particular entries whose `fact` and `text` fields are both absent or
empty strings, whose key is the empty string — are silently skipped and
never appended, and deduplication runs against the accumulating merged
list, so repeated incoming entries with one non-empty text missing from
the existing list contribute exactly one appended entry. -/
theorem C10_empty_skip_accumulating_dedup (existing incoming : List JVal) (t : String)
    (fs : List (String × JVal)) :
    ((mergeMedicalFacts existing incoming).countP
        (fun x => !(jvalTruthy (factText x))) =
      existing.countP (fun x => !(jvalTruthy (factText x)))) ∧
    ((getField fs "fact" = JVal.null ∨ getField fs "fact" = JVal.str "") →
      (getField fs "text" = JVal.null ∨ getField fs "text" = JVal.str "") →
      factText (JVal.obj fs) = JVal.str "" ∧
      jvalTruthy (factText (JVal.obj fs)) = false) ∧
    (t ≠ "" → (existing.any fun x => jsStrictEq (factText x) (JVal.str t)) = false →
      (mergeMedicalFacts existing incoming).countP
          (fun x => jsStrictEq (factText x) (JVal.str t)) =
        if (incoming.any fun x => jsStrictEq (factText x) (JVal.str t)) = true
        then 1 else 0) := by
  refine ⟨?_, ?_, ?_⟩
  · obtain ⟨l, hl, hs, hp, hpw⟩ := mergeMedicalFacts_decomp incoming existing
    rw [hl, List.countP_append]
    have h0 : l.countP (fun x => !(jvalTruthy (factText x))) = 0 := by
      apply List.countP_eq_zero.mpr
      intro x hx hxe
      rw [(hp x hx).1] at hxe
      cases hxe
    rw [h0]
    omega
  · intro hfact htext
    have hkey : factText (JVal.obj fs) = JVal.str "" := by
      rcases hfact with hf | hf <;> rcases htext with hx | hx <;> simp [factText, hf, hx]
    refine ⟨hkey, ?_⟩
    rw [hkey]
    rfl
  · intro ht hex
    obtain ⟨l, hl, hs, hp, hpw⟩ := mergeMedicalFacts_decomp incoming existing
    have hex0 : existing.countP (fun x => jsStrictEq (factText x) (JVal.str t)) = 0 := by
      apply List.countP_eq_zero.mpr
      intro x hx hxt
      have hany : (existing.any fun y => jsStrictEq (factText y) (JVal.str t)) = true :=
        List.any_eq_true.mpr ⟨x, hx, hxt⟩
      rw [hany] at hex
      cases hex
    cases hin : (incoming.any fun x => jsStrictEq (factText x) (JVal.str t)) with
    | true =>
      obtain ⟨nf, hnfmem, hnft⟩ := List.any_eq_true.mp hin
      have hkey : factText nf = JVal.str t := (jsStrictEq_str_right _ t).mp hnft
      have htru : jvalTruthy (factText nf) = true := by
        rw [hkey]
        simp [jvalTruthy, ht]
      have hrefl : jsStrictEq (factText nf) (factText nf) = true := by
        rw [hkey]
        simp [jsStrictEq]
      have hres := mergeMedicalFacts_mem_key incoming existing nf hnfmem htru hrefl
      simp only [hkey] at hres
      rw [hl] at hres ⊢
      rw [List.any_append, hex, Bool.false_or] at hres
      have hle : l.countP (fun x => jsStrictEq (factText x) (JVal.str t)) ≤ 1 :=
        countP_le_one_of_pairwise_key t l hpw
      have hpos : 0 < l.countP (fun x => jsStrictEq (factText x) (JVal.str t)) := by
        obtain ⟨y, hy, hyt⟩ := List.any_eq_true.mp hres
        exact List.countP_pos_iff.mpr ⟨y, hy, hyt⟩
      rw [List.countP_append, hex0, if_pos rfl]
      omega
    | false =>
      rw [hl, List.countP_append, hex0]
      rw [if_neg (fun hcon => Bool.false_ne_true hcon)]
      have h0 : l.countP (fun x => jsStrictEq (factText x) (JVal.str t)) = 0 := by
        apply List.countP_eq_zero.mpr
        intro x hx hxt
        have hany : (incoming.any fun y => jsStrictEq (factText y) (JVal.str t)) = true :=
          List.any_eq_true.mpr ⟨x, hs.subset hx, hxt⟩
        rw [hany] at hin
        cases hin
      rw [h0]

/-- Claim C10 witness: two incoming duplicates of one new text plus an
entry with no fields yield exactly one appended entry and no falsy-keyed
entry. -/
theorem C10_witness :
    ((mergeMedicalFacts []
        [JVal.obj [("fact", JVal.str "dup")], JVal.obj [("fact", JVal.str "dup")],
         JVal.obj []]).countP (fun x => !(jvalTruthy (factText x))) =
      ([] : List JVal).countP (fun x => !(jvalTruthy (factText x)))) ∧
    (factText (JVal.obj [("fact", JVal.str "")]) = JVal.str "" ∧
     jvalTruthy (factText (JVal.obj [("fact", JVal.str "")])) = false) ∧
    ((mergeMedicalFacts []
        [JVal.obj [("fact", JVal.str "dup")], JVal.obj [("fact", JVal.str "dup")],
         JVal.obj []]).countP (fun x => jsStrictEq (factText x) (JVal.str "dup")) =
      if (([JVal.obj [("fact", JVal.str "dup")], JVal.obj [("fact", JVal.str "dup")],
            JVal.obj []].any fun x => jsStrictEq (factText x) (JVal.str "dup")) = true)
      then 1 else 0) :=
  ⟨(C10_empty_skip_accumulating_dedup []
      [JVal.obj [("fact", JVal.str "dup")], JVal.obj [("fact", JVal.str "dup")],
       JVal.obj []] "dup" [("fact", JVal.str "")]).1,
   (C10_empty_skip_accumulating_dedup []
      [JVal.obj [("fact", JVal.str "dup")], JVal.obj [("fact", JVal.str "dup")],
       JVal.obj []] "dup" [("fact", JVal.str "")]).2.1 (Or.inr rfl) (Or.inl rfl),
   (C10_empty_skip_accumulating_dedup []
      [JVal.obj [("fact", JVal.str "dup")], JVal.obj [("fact", JVal.str "dup")],
       JVal.obj []] "dup" [("fact", JVal.str "")]).2.2 (by decide) rfl⟩

/-- Claim C5 witness: merging a concrete list of facts with non-empty
distinct texts into itself returns it unchanged. -/
theorem C5_witness :
    mergeMedicalFacts
      [JVal.obj [("fact", JVal.str "A")], JVal.obj [("fact", JVal.str "B")]]
      [JVal.obj [("fact", JVal.str "A")], JVal.obj [("fact", JVal.str "B")]]
      = [JVal.obj [("fact", JVal.str "A")], JVal.obj [("fact", JVal.str "B")]] :=
  (C5_merge_dedup_order [] []
    [JVal.obj [("fact", JVal.str "A")], JVal.obj [("fact", JVal.str "B")]]
    (by
      intro x hx
      rcases List.mem_cons.mp hx with rfl | hx2
      · exact ⟨"A", by decide, rfl⟩
      · rcases List.mem_cons.mp hx2 with rfl | hx3
        · exact ⟨"B", by decide, rfl⟩
        · cases hx3)).2

/-- Claim C7 witness: the all-empty call renders nothing. -/
theorem C7_witness : assembleMemoryMarkdown none [] [] = none :=
  (C7_render_none_iff none [] []).2

-- ── Ingest: retry characterisation ──────────────────────────────────

/-- Unfolding of the bounded retry recursion: `ingest` is the first
attempt, retried exactly once when the first error is deadlock-classified,
and never consults any later attempt. -/
theorem ingest_eq (now today : String) (inj : Nat → Nat → Option SqlError)
    (db : DBState) (opts : IngestOpts) :
    ingest now today inj db opts =
      match ingestAttempt now today (inj 0) db opts with
      | Except.ok r => (r.fst, Except.ok r.snd)
      | Except.error e =>
        if isDeadlockErr e = true then
          match ingestAttempt now today (inj 1) db opts with
          | Except.ok r => (r.fst, Except.ok r.snd)
          | Except.error e2 => (db, Except.error e2)
        else (db, Except.error e) := by
  show ingestFrom now today inj db opts 0 = _
  rw [ingestFrom.eq_def]
  cases hA : ingestAttempt now today (inj 0) db opts with
  | ok r => rfl
  | error e =>
    simp only
    by_cases hd : isDeadlockErr e = true
    · rw [dif_pos ⟨hd, Nat.zero_lt_one⟩, if_pos hd]
      rw [ingestFrom.eq_def]
      cases hB : ingestAttempt now today (inj 1) db opts with
      | ok r => rfl
      | error e2 =>
        simp only
        rw [dif_neg]
        intro hcon
        exact Nat.lt_irrefl 1 hcon.2
    · rw [dif_neg, if_neg hd]
      intro hcon
      exact hd hcon.1

/-- Claim C1: if any statement of an ingest transaction raises, the whole
transaction is rolled back — the caller observes the pre-call database
state, so no sub-write (episode, concern, profile, render) is persisted —
and the error is re-raised unchanged once the single deadlock retry is
exhausted or does not apply. -/
theorem C1_ingest_atomic (now today : String) (inj : Nat → Nat → Option SqlError)
    (db : DBState) (opts : IngestOpts) :
    (∀ db2 e, ingest now today inj db opts = (db2, Except.error e) → db2 = db) ∧
    (∀ e, ingestAttempt now today (inj 0) db opts = Except.error e →
      isDeadlockErr e = false →
      ingest now today inj db opts = (db, Except.error e)) ∧
    (∀ e e2, ingestAttempt now today (inj 0) db opts = Except.error e →
      isDeadlockErr e = true →
      ingestAttempt now today (inj 1) db opts = Except.error e2 →
      ingest now today inj db opts = (db, Except.error e2)) := by
  refine ⟨?_, ?_, ?_⟩
  · intro db2 e h
    rw [ingest_eq] at h
    cases hA : ingestAttempt now today (inj 0) db opts with
    | ok r =>
      rw [hA] at h
      cases h
    | error e1 =>
      rw [hA] at h
      dsimp only at h
      by_cases hd : isDeadlockErr e1 = true
      · rw [if_pos hd] at h
        cases hB : ingestAttempt now today (inj 1) db opts with
        | ok r =>
          rw [hB] at h
          cases h
        | error e2 =>
          rw [hB] at h
          dsimp only at h
          cases h
          rfl
      · rw [if_neg hd] at h
        cases h
        rfl
  · intro e hA hd
    rw [ingest_eq, hA]
    dsimp only
    rw [if_neg (by rw [hd]; exact Bool.false_ne_true)]
  · intro e e2 hA hd hB
    rw [ingest_eq, hA]
    dsimp only
    rw [if_pos hd, hB]

/-- Claim C1 witness: a transaction with an episode insert followed by a
concern upsert whose upsert statement raises a duplicate-entry error (not
a deadlock) returns the error unchanged and leaves the database — in
particular the episode table — exactly as before the call. -/
theorem C1_witness :
    ingest "2025-01-01 00:00:00" "2025-01-01"
      (fun a k => if a == 0 && k == 2 then some { errno := 1062, code := "ER_DUP_ENTRY" }
                  else none)
      { profile := none, episodes := [], nextEpisodeId := 1, concerns := [],
        nextConcernId := 1, memoryFile := none }
      { profileUpdates := none,
        episode := some { episodeType := "conversation", channel := "web",
                          content := "hello", metadata := none },
        concerns := some [{ concernKey := "k", displayName := "K",
                            severity := Severity.high, evidenceText := "e", source := "s" }],
        render := some false }
      = ({ profile := none, episodes := [], nextEpisodeId := 1, concerns := [],
           nextConcernId := 1, memoryFile := none },
         Except.error { errno := 1062, code := "ER_DUP_ENTRY" }) :=
  (C1_ingest_atomic "2025-01-01 00:00:00" "2025-01-01"
      (fun a k => if a == 0 && k == 2 then some { errno := 1062, code := "ER_DUP_ENTRY" }
                  else none)
      { profile := none, episodes := [], nextEpisodeId := 1, concerns := [],
        nextConcernId := 1, memoryFile := none }
      { profileUpdates := none,
        episode := some { episodeType := "conversation", channel := "web",
                          content := "hello", metadata := none },
        concerns := some [{ concernKey := "k", displayName := "K",
                            severity := Severity.high, evidenceText := "e", source := "s" }],
        render := some false }).2.1
    { errno := 1062, code := "ER_DUP_ENTRY" } rfl rfl

/-- Claim C2 counterexample: a lock-wait-timeout error (errno 1205,
ER_LOCK_WAIT_TIMEOUT) on the first attempt is not retried — the error
propagates even though the retry attempt would have succeeded — so the
claim that a lock-wait-timeout signal triggers the one-shot retry is
false. -/
theorem C2_counterexample :
    ingest "2025-01-01 00:00:00" "2025-01-01"
      (fun a _ => if a == 0 then some { errno := 1205, code := "ER_LOCK_WAIT_TIMEOUT" }
                  else none)
      { profile := none, episodes := [], nextEpisodeId := 1, concerns := [],
        nextConcernId := 1, memoryFile := none }
      { profileUpdates := none,
        episode := some { episodeType := "conversation", channel := "web",
                          content := "hello", metadata := none },
        concerns := none, render := some false }
      = ({ profile := none, episodes := [], nextEpisodeId := 1, concerns := [],
           nextConcernId := 1, memoryFile := none },
         Except.error { errno := 1205, code := "ER_LOCK_WAIT_TIMEOUT" }) ∧
    (ingestAttempt "2025-01-01 00:00:00" "2025-01-01"
      ((fun (a : Nat) (_ : Nat) =>
          if a == 0 then some { errno := 1205, code := "ER_LOCK_WAIT_TIMEOUT" }
          else (none : Option SqlError)) 1)
      { profile := none, episodes := [], nextEpisodeId := 1, concerns := [],
        nextConcernId := 1, memoryFile := none }
      { profileUpdates := none,
        episode := some { episodeType := "conversation", channel := "web",
                          content := "hello", metadata := none },
        concerns := none, render := some false }).toOption.isSome = true := by
  constructor
  · rw [ingest_eq]
    rfl
  · rfl

/-- Claim C2 (amended): `ingest` retries the whole operation exactly once,
on a fresh connection, when the first attempt fails with a
deadlock-classified error (errno 1213 or code ER_LOCK_DEADLOCK) — not on
lock-wait-timeout or any other error class, which propagate immediately —
a deadlock on the retried attempt propagates, and the outcome never
depends on any attempt beyond the second. -/
theorem C2_retry_once_on_deadlock (now today : String) (inj : Nat → Nat → Option SqlError)
    (db : DBState) (opts : IngestOpts) :
    (∀ r, ingestAttempt now today (inj 0) db opts = Except.ok r →
      ingest now today inj db opts = (r.fst, Except.ok r.snd)) ∧
    (∀ e, ingestAttempt now today (inj 0) db opts = Except.error e →
      isDeadlockErr e = true →
      ingest now today inj db opts =
        (match ingestAttempt now today (inj 1) db opts with
         | Except.ok r => (r.fst, Except.ok r.snd)
         | Except.error e2 => (db, Except.error e2))) ∧
    (∀ e, ingestAttempt now today (inj 0) db opts = Except.error e →
      isDeadlockErr e = false →
      ingest now today inj db opts = (db, Except.error e)) ∧
    (∀ inj2 : Nat → Nat → Option SqlError, inj2 0 = inj 0 → inj2 1 = inj 1 →
      ingest now today inj2 db opts = ingest now today inj db opts) := by
  refine ⟨?_, ?_, ?_, ?_⟩
  · intro r hA
    rw [ingest_eq, hA]
  · intro e hA hd
    rw [ingest_eq, hA]
    dsimp only
    rw [if_pos hd]
  · intro e hA hd
    rw [ingest_eq, hA]
    dsimp only
    rw [if_neg (by rw [hd]; exact Bool.false_ne_true)]
  · intro inj2 h0 h1
    rw [ingest_eq, ingest_eq, h0, h1]

/-- Claim C2 witness: a deadlock error on the first attempt followed by a
clean retry commits the retry's state — exactly two attempts. -/
theorem C2_witness :
    ingest "2025-01-01 00:00:00" "2025-01-01"
      (fun a k => if a == 0 && k == 1 then some { errno := 1213, code := "ER_LOCK_DEADLOCK" }
                  else none)
      { profile := none, episodes := [], nextEpisodeId := 1, concerns := [],
        nextConcernId := 1, memoryFile := none }
      { profileUpdates := none,
        episode := some { episodeType := "conversation", channel := "web",
                          content := "hello", metadata := none },
        concerns := none, render := some false }
      = ({ profile := none,
           episodes := [{ id := 1, episodeType := "conversation", channel := "web",
                          content := "hello", metadata := none, isSuperseded := false,
                          createdAt := "2025-01-01 00:00:00" }],
           nextEpisodeId := 2, concerns := [], nextConcernId := 1, memoryFile := none },
         Except.ok { profile := none, episode := some 1, concerns := none,
                     render := none }) := by
  rw [(C2_retry_once_on_deadlock "2025-01-01 00:00:00" "2025-01-01"
      (fun a k => if a == 0 && k == 1 then some { errno := 1213, code := "ER_LOCK_DEADLOCK" }
                  else none)
      { profile := none, episodes := [], nextEpisodeId := 1, concerns := [],
        nextConcernId := 1, memoryFile := none }
      { profileUpdates := none,
        episode := some { episodeType := "conversation", channel := "web",
                          content := "hello", metadata := none },
        concerns := none, render := some false }).2.1
    { errno := 1213, code := "ER_LOCK_DEADLOCK" } rfl rfl]
  rfl

end EntityMemory
